import Mathlib

/-!
Verification of the single-flight simulated request controller of
`src/script.js` (tabbed-menu-app).

The script is a set of DOM event handlers sharing two globals
(`currentTab`, `isLoading`), a status element, and `setTimeout` timers.
We embed it shallowly: the mutable page state is a structure `AppState`,
the static DOM shape (which elements exist) is a structure `Dom`, each
handler is a state-transformer translated line by line from the source,
and the ambient sources of nondeterminism (`Math.random` draws, the
`toLocaleTimeString` timestamp) become explicit parameters of the events
that consume them.  `setTimeout` is modelled by a list of pending timers:
scheduling appends a timer, and a separate `fire` event runs the callback
of the first pending timer (the single-flight invariant proves there is
never more than one).
-/

/-- A completion timer scheduled by `setTimeout` inside `simulateRestApiCall`
(script.js line 166): the captured item name (the `data-item` attribute,
which `getAttribute` may return as `null`, hence `Option`) and the computed
delay in milliseconds. -/
structure PendingCall where
  itemName : Option String
  delay : ℚ
deriving DecidableEq

/-- The static shape of the page: the `data-tab` values of the `.tab-button`
elements, the ids of the `.tab-content` elements, and whether the
`statusMessage` element exists (script.js checks it defensively,
line 224). -/
structure Dom where
  tabButtons : List String
  tabContents : List String
  hasStatus : Bool
deriving DecidableEq

/-- The mutable state of the page: the two globals of script.js lines 6-7,
the text and class list of the status element, which tab buttons / content
panels carry the `active` class, the disabled flag applied uniformly to all
menu items by `disableMenuItems`, and the pending `setTimeout` timers. -/
structure AppState where
  currentTab : String
  isLoading : Bool
  statusText : String
  statusClasses : List String
  activeTabBtns : List String
  activeContents : List String
  menuDisabled : Bool
  pendingTimers : List PendingCall
deriving DecidableEq

/-- The three styling classes that `updateStatusMessage` always clears
(script.js line 229). -/
def statusStyleClasses : List String := ["loading", "success", "error"]

/-- updateStatusMessage (script.js 219-236): when the status element exists,
set its text, remove the classes `loading`, `success`, `error`, and add
`type` when it is non-empty (the empty string is falsy in JS); when the
element is absent, do nothing.  `classList.add` does not duplicate an
existing token, hence `List.insert`. -/
def updateStatusMessage (dom : Dom) (message : String) (type : String)
    (s : AppState) : AppState :=
  if dom.hasStatus then
    { s with
      statusText := message
      statusClasses :=
        let cleared := s.statusClasses.filter
          (fun c => !(statusStyleClasses.contains c))
        if type = "" then cleared else cleared.insert type }
  else s

/-- getTabDisplayName (script.js 101-110): map of tab ids to display names,
with the id itself as fallback. -/
def getTabDisplayName (tabId : String) : String :=
  if tabId = "tab1" then "Main Dishes"
  else if tabId = "tab2" then "Beverages"
  else if tabId = "tab3" then "Desserts"
  else tabId

/-- switchToTab (script.js 62-93): set `currentTab`, move the `active` class
to the button with the matching `data-tab` (if any) and to the content panel
with the matching id (if any), then report the switch in the status bar. -/
def switchToTab (dom : Dom) (tabId : String) (s : AppState) : AppState :=
  let s1 := { s with
    currentTab := tabId
    activeTabBtns := if dom.tabButtons.contains tabId then [tabId] else []
    activeContents := if dom.tabContents.contains tabId then [tabId] else [] }
  updateStatusMessage dom ("Switched to " ++ getTabDisplayName tabId)
    "success" s1

/-- The click handler installed on every tab button (script.js 41-54,
inside the tab-system setup): while `isLoading`, show an advisory and
return early; otherwise switch to the button's `data-tab`. -/
def tabClickHandler (dom : Dom) (targetTab : String) (s : AppState) :
    AppState :=
  if s.isLoading then
    updateStatusMessage dom "Please wait for current operation to complete"
      "error" s
  else
    switchToTab dom targetTab s

/-- JS template-literal rendering of a `getAttribute` result: a string
interpolates as itself, and `null` interpolates as the text `null`. -/
def attrToString : Option String → String
  | some v => v
  | none => "null"

/-- The delay computed at script.js line 163:
`Math.random() * 2000 + 1000`, with `r` the `Math.random()` draw. -/
def computeDelay (r : ℚ) : ℚ := r * 2000 + 1000

/-- The success draw at script.js line 168: `Math.random() > 0.1`,
with `r` the `Math.random()` draw. -/
def simSuccess (r : ℚ) : Bool := r > 1/10

/-- disableMenuItems (script.js 243-261): set the disabled flag (and the
corresponding styling) on every menu item. -/
def disableMenuItems (disabled : Bool) (s : AppState) : AppState :=
  { s with menuDisabled := disabled }

/-- simulateRestApiCall (script.js 154-181): set `isLoading`, show the
loading message, disable the menu items, and schedule the completion
callback after the computed random delay.  `rDelay` is the `Math.random()`
draw of line 163; the callback body is `fireTimer` below. -/
def simulateRestApiCall (dom : Dom) (itemName : Option String) (rDelay : ℚ)
    (s : AppState) : AppState :=
  let s1 := { s with isLoading := true }
  let s2 := updateStatusMessage dom
    ("Simulating REST API call for \"" ++ attrToString itemName ++ "\"...")
    "loading" s1
  let s3 := disableMenuItems true s2
  { s3 with pendingTimers := s3.pendingTimers ++ [⟨itemName, computeDelay rDelay⟩] }

/-- The click handler installed on every menu item (script.js 128-139,
inside the menu-item setup): while `isLoading`, show the busy advisory and
return early; otherwise read the `data-item` attribute and simulate the
call. -/
def menuItemClickHandler (dom : Dom) (itemAttr : Option String) (rDelay : ℚ)
    (s : AppState) : AppState :=
  if s.isLoading then
    updateStatusMessage dom "API call already in progress - Please wait"
      "error" s
  else
    simulateRestApiCall dom itemAttr rDelay s

/-- The success message built by handleApiSuccess (script.js 192). -/
def successMsg (itemName : Option String) (time : String) : String :=
  "✓ API call successful for \"" ++ attrToString itemName ++ "\" at " ++ time

/-- The failure message built by handleApiError (script.js 204). -/
def failMsg (itemName : Option String) (time : String) : String :=
  "✗ API call failed for \"" ++ attrToString itemName ++ "\" at " ++ time

/-- The busy advisory shown by the menu-item handler when a click arrives
while loading (script.js 131). -/
def busyAdvisoryMsg : String := "API call already in progress - Please wait"

/-- handleApiSuccess (script.js 188-193): show the success message with the
`success` class; `time` is the `toLocaleTimeString()` timestamp. -/
def handleApiSuccess (dom : Dom) (itemName : Option String) (time : String)
    (s : AppState) : AppState :=
  updateStatusMessage dom (successMsg itemName time) "success" s

/-- handleApiError (script.js 200-205): show the failure message with the
`error` class. -/
def handleApiError (dom : Dom) (itemName : Option String) (time : String)
    (s : AppState) : AppState :=
  updateStatusMessage dom (failMsg itemName time) "error" s

/-- The `setTimeout` callback of simulateRestApiCall (script.js 166-180),
run when the first pending timer fires: draw success with the
`Math.random()` value `rSuccess`, dispatch to the success or error handler,
then clear `isLoading` and re-enable the menu items.  With no pending timer
the event is a no-op (it cannot occur). -/
def fireTimer (dom : Dom) (rSuccess : ℚ) (time : String) (s : AppState) :
    AppState :=
  match s.pendingTimers with
  | [] => s
  | t :: rest =>
    let s1 := if simSuccess rSuccess then
        handleApiSuccess dom t.itemName time s
      else
        handleApiError dom t.itemName time s
    { disableMenuItems false { s1 with isLoading := false } with
        pendingTimers := rest }

/-- The external events the page reacts to.  Random draws and timestamps
are carried by the event that consumes them, since `Math.random()` and the
clock are ambient in the source. -/
inductive Event where
  | clickTab (targetTab : String)
  | clickMenu (itemAttr : Option String) (rDelay : ℚ)
  | fire (rSuccess : ℚ) (time : String)

/-- One step of the event loop: dispatch an event to its handler. -/
def step (dom : Dom) (s : AppState) : Event → AppState
  | .clickTab t => tabClickHandler dom t s
  | .clickMenu i r => menuItemClickHandler dom i r s
  | .fire r time => fireTimer dom r time s

/-- The state after `DOMContentLoaded` (script.js 19-24): the globals at
their initial values (lines 6-7), no timers, and the ready message shown.
The HTML marks tab1 active initially. -/
def initState (dom : Dom) : AppState :=
  updateStatusMessage dom "Application initialized - Ready to use" ""
    { currentTab := "tab1"
      isLoading := false
      statusText := ""
      statusClasses := []
      activeTabBtns := ["tab1"]
      activeContents := ["tab1"]
      menuDisabled := false
      pendingTimers := [] }

/-- The state reached from the initial state by a sequence of events. -/
def run (dom : Dom) (evs : List Event) : AppState :=
  evs.foldl (step dom) (initState dom)

/-- The single-flight invariant: never more than one pending completion
timer, and the busy flag true exactly when a timer is pending. -/
def timerInv (s : AppState) : Prop :=
  s.pendingTimers.length ≤ 1 ∧ (s.isLoading = true ↔ s.pendingTimers ≠ [])

@[simp] lemma updateStatusMessage_isLoading (dom : Dom) (m ty : String)
    (s : AppState) : (updateStatusMessage dom m ty s).isLoading = s.isLoading := by
  unfold updateStatusMessage; split <;> rfl

@[simp] lemma updateStatusMessage_pendingTimers (dom : Dom) (m ty : String)
    (s : AppState) :
    (updateStatusMessage dom m ty s).pendingTimers = s.pendingTimers := by
  unfold updateStatusMessage; split <;> rfl

@[simp] lemma updateStatusMessage_currentTab (dom : Dom) (m ty : String)
    (s : AppState) :
    (updateStatusMessage dom m ty s).currentTab = s.currentTab := by
  unfold updateStatusMessage; split <;> rfl

@[simp] lemma updateStatusMessage_menuDisabled (dom : Dom) (m ty : String)
    (s : AppState) :
    (updateStatusMessage dom m ty s).menuDisabled = s.menuDisabled := by
  unfold updateStatusMessage; split <;> rfl

@[simp] lemma updateStatusMessage_activeTabBtns (dom : Dom) (m ty : String)
    (s : AppState) :
    (updateStatusMessage dom m ty s).activeTabBtns = s.activeTabBtns := by
  unfold updateStatusMessage; split <;> rfl

@[simp] lemma updateStatusMessage_activeContents (dom : Dom) (m ty : String)
    (s : AppState) :
    (updateStatusMessage dom m ty s).activeContents = s.activeContents := by
  unfold updateStatusMessage; split <;> rfl

lemma updateStatusMessage_statusText (dom : Dom) (m ty : String)
    (s : AppState) (h : dom.hasStatus = true) :
    (updateStatusMessage dom m ty s).statusText = m := by
  unfold updateStatusMessage; rw [h]; simp

lemma updateStatusMessage_of_hasStatus_false (dom : Dom) (m ty : String)
    (s : AppState) (h : dom.hasStatus = false) :
    updateStatusMessage dom m ty s = s := by
  unfold updateStatusMessage; rw [h]; simp

@[simp] lemma switchToTab_isLoading (dom : Dom) (t : String) (s : AppState) :
    (switchToTab dom t s).isLoading = s.isLoading := by
  unfold switchToTab; simp

@[simp] lemma switchToTab_pendingTimers (dom : Dom) (t : String)
    (s : AppState) : (switchToTab dom t s).pendingTimers = s.pendingTimers := by
  unfold switchToTab; simp

@[simp] lemma simulateRestApiCall_isLoading (dom : Dom) (i : Option String)
    (r : ℚ) (s : AppState) :
    (simulateRestApiCall dom i r s).isLoading = true := by
  unfold simulateRestApiCall disableMenuItems
  simp

@[simp] lemma simulateRestApiCall_pendingTimers (dom : Dom) (i : Option String)
    (r : ℚ) (s : AppState) :
    (simulateRestApiCall dom i r s).pendingTimers
      = s.pendingTimers ++ [⟨i, computeDelay r⟩] := by
  unfold simulateRestApiCall disableMenuItems
  simp

lemma timerInv_step (dom : Dom) (s : AppState) (e : Event)
    (h : timerInv s) : timerInv (step dom s e) := by
  obtain ⟨hlen, hiff⟩ := h
  cases e with
  | clickTab t =>
    show timerInv (tabClickHandler dom t s)
    unfold tabClickHandler timerInv
    split
    · exact ⟨by simpa using hlen, by simpa using hiff⟩
    · exact ⟨by simpa using hlen, by simpa using hiff⟩
  | clickMenu i r =>
    show timerInv (menuItemClickHandler dom i r s)
    unfold menuItemClickHandler timerInv
    split
    · exact ⟨by simpa using hlen, by simpa using hiff⟩
    · rename_i hload
      have hload' : s.isLoading = false := by
        cases hl : s.isLoading with
        | false => rfl
        | true => exact absurd hl hload
      have hempty : s.pendingTimers = [] := by
        by_contra hne
        have := hiff.mpr hne
        rw [hload'] at this
        exact Bool.false_ne_true this
      constructor
      · rw [simulateRestApiCall_pendingTimers, hempty]; simp
      · rw [simulateRestApiCall_isLoading, simulateRestApiCall_pendingTimers,
          hempty]
        simp
  | fire r time =>
    show timerInv (fireTimer dom r time s)
    unfold fireTimer timerInv
    split
    · exact ⟨hlen, hiff⟩
    · rename_i t rest hpt
      have hrest : rest = [] := by
        rw [hpt] at hlen
        simpa using hlen
      subst hrest
      constructor
      · simp
      · simp [disableMenuItems]

lemma timerInv_initState (dom : Dom) : timerInv (initState dom) := by
  unfold initState
  constructor
  · rw [updateStatusMessage_pendingTimers]; simp
  · rw [updateStatusMessage_isLoading, updateStatusMessage_pendingTimers]
    simp

lemma timerInv_foldl (dom : Dom) (evs : List Event) (s : AppState)
    (h : timerInv s) : timerInv (evs.foldl (step dom) s) := by
  induction evs generalizing s with
  | nil => exact h
  | cons e evs ih => exact ih _ (timerInv_step dom s e h)

lemma timerInv_run (dom : Dom) (evs : List Event) : timerInv (run dom evs) :=
  timerInv_foldl dom evs _ (timerInv_initState dom)

lemma fireTimer_eq (dom : Dom) (r : ℚ) (time : String) (s : AppState)
    (t : PendingCall) (rest : List PendingCall)
    (hpt : s.pendingTimers = t :: rest) :
    fireTimer dom r time s
      = { (if simSuccess r then handleApiSuccess dom t.itemName time s
           else handleApiError dom t.itemName time s) with
          isLoading := false
          menuDisabled := false
          pendingTimers := rest } := by
  unfold fireTimer
  rw [hpt]
  rfl

lemma menuItemClickHandler_busy (dom : Dom) (item : Option String) (r : ℚ)
    (s : AppState) (hb : s.isLoading = true) :
    menuItemClickHandler dom item r s
      = updateStatusMessage dom busyAdvisoryMsg "error" s := by
  unfold menuItemClickHandler
  rw [if_pos hb]
  rfl

lemma menuItemClickHandler_idle (dom : Dom) (item : Option String) (r : ℚ)
    (s : AppState) (hi : s.isLoading = false) :
    menuItemClickHandler dom item r s = simulateRestApiCall dom item r s := by
  unfold menuItemClickHandler
  rw [if_neg (by rw [hi]; exact Bool.false_ne_true)]

/-- A concrete page with the three tabs and a status element, used to
instantiate the universally quantified theorems below. -/
def demoDom : Dom :=
  ⟨["tab1", "tab2", "tab3"], ["tab1", "tab2", "tab3"], true⟩

/-- A concrete busy state: the state right after a single accepted
menu-item click from the initial state. -/
def demoBusy : AppState :=
  run demoDom [.clickMenu (some "Pizza") (1/2)]


/-- C1: single-flight invariant.  In every state reachable by a sequence of
events, at most one completion timer is pending, the busy flag holds exactly
when a timer is pending (Busy iff a completion timer is scheduled), and while
busy every further menu-item click (submit) is rejected: it leaves the busy
flag set and schedules nothing. -/
theorem single_flight_invariant (dom : Dom) (evs : List Event) :
    (run dom evs).pendingTimers.length ≤ 1
    ∧ ((run dom evs).isLoading = true ↔ (run dom evs).pendingTimers ≠ [])
    ∧ ((run dom evs).isLoading = true →
        ∀ item r,
          (step dom (run dom evs) (.clickMenu item r)).isLoading = true
          ∧ (step dom (run dom evs) (.clickMenu item r)).pendingTimers
              = (run dom evs).pendingTimers) := by
  obtain ⟨hlen, hiff⟩ := timerInv_run dom evs
  refine ⟨hlen, hiff, ?_⟩
  intro hbusy item r
  show (menuItemClickHandler dom item r (run dom evs)).isLoading = true
    ∧ (menuItemClickHandler dom item r (run dom evs)).pendingTimers
        = (run dom evs).pendingTimers
  unfold menuItemClickHandler
  rw [if_pos hbusy]
  exact ⟨by rw [updateStatusMessage_isLoading]; exact hbusy,
    updateStatusMessage_pendingTimers _ _ _ _⟩

/-- Witness for C1 at a concrete busy run: one accepted click, then a click
of a second item while busy. -/
theorem single_flight_invariant_witness :
    demoBusy.isLoading = true
    ∧ (step demoDom demoBusy (.clickMenu (some "Soda") 0)).isLoading = true
    ∧ (step demoDom demoBusy (.clickMenu (some "Soda") 0)).pendingTimers
        = demoBusy.pendingTimers :=
  have hbusy : demoBusy.isLoading = true := rfl
  have h := (single_flight_invariant demoDom
    [.clickMenu (some "Pizza") (1/2)]).2.2 hbusy (some "Soda") 0
  ⟨hbusy, h.1, h.2⟩

/-- C2: after the completion notification fires in a busy state, the
controller is idle again: the busy flag is cleared, the menu items are
re-enabled, no timer is pending, and the next menu-item click is accepted
(it sets the busy flag and schedules exactly one completion timer for that
item). -/
theorem completion_returns_idle (dom : Dom) (s : AppState) (r : ℚ)
    (time : String) (hne : s.pendingTimers ≠ [])
    (hlen : s.pendingTimers.length ≤ 1) :
    (fireTimer dom r time s).isLoading = false
    ∧ (fireTimer dom r time s).menuDisabled = false
    ∧ (fireTimer dom r time s).pendingTimers = []
    ∧ ∀ item rd,
        (menuItemClickHandler dom item rd (fireTimer dom r time s)).isLoading
          = true
        ∧ (menuItemClickHandler dom item rd
            (fireTimer dom r time s)).pendingTimers
            = [⟨item, computeDelay rd⟩] := by
  obtain ⟨t, rest, hpt⟩ : ∃ t rest, s.pendingTimers = t :: rest := by
    cases hp : s.pendingTimers with
    | nil => exact absurd hp hne
    | cons t rest => exact ⟨t, rest, rfl⟩
  have hrest : rest = [] := by
    rw [hpt] at hlen
    simpa using hlen
  subst hrest
  rw [fireTimer_eq dom r time s t [] hpt]
  refine ⟨rfl, rfl, rfl, ?_⟩
  intro item rd
  unfold menuItemClickHandler
  rw [if_neg (by simp)]
  constructor
  · rw [simulateRestApiCall_isLoading]
  · rw [simulateRestApiCall_pendingTimers]
    rfl

/-- Witness for C2: firing the completion of the concrete busy state, then
clicking another item. -/
theorem completion_returns_idle_witness :
    (fireTimer demoDom (1/2) "12:00:00" demoBusy).isLoading = false
    ∧ (fireTimer demoDom (1/2) "12:00:00" demoBusy).menuDisabled = false
    ∧ (fireTimer demoDom (1/2) "12:00:00" demoBusy).pendingTimers = []
    ∧ ((menuItemClickHandler demoDom (some "Soda") 0
          (fireTimer demoDom (1/2) "12:00:00" demoBusy)).isLoading = true
        ∧ (menuItemClickHandler demoDom (some "Soda") 0
            (fireTimer demoDom (1/2) "12:00:00" demoBusy)).pendingTimers
            = [⟨some "Soda", computeDelay 0⟩]) :=
  have hne : demoBusy.pendingTimers ≠ [] := by
    apply List.ne_nil_of_length_pos
    rw [show demoBusy.pendingTimers.length = 1 from rfl]
    norm_num
  have h := completion_returns_idle demoDom demoBusy (1/2) "12:00:00" hne
    (by rw [show demoBusy.pendingTimers.length = 1 from rfl])
  ⟨h.1, h.2.1, h.2.2.1, h.2.2.2 (some "Soda") 0⟩

/-- C3: a menu-item click that arrives while busy is rejected synchronously
with no state change: the busy flag, the pending timer list (the in-flight
request), the current tab, the menu-disabled flag and the tab highlighting
are all unchanged, nothing is enqueued, and when the status element exists
the rejection is surfaced as the busy advisory with the error class. -/
theorem busy_submit_rejected (dom : Dom) (s : AppState) (item : Option String)
    (r : ℚ) (hbusy : s.isLoading = true) :
    (menuItemClickHandler dom item r s).isLoading = s.isLoading
    ∧ (menuItemClickHandler dom item r s).pendingTimers = s.pendingTimers
    ∧ (menuItemClickHandler dom item r s).currentTab = s.currentTab
    ∧ (menuItemClickHandler dom item r s).menuDisabled = s.menuDisabled
    ∧ (menuItemClickHandler dom item r s).activeTabBtns = s.activeTabBtns
    ∧ (menuItemClickHandler dom item r s).activeContents = s.activeContents
    ∧ (dom.hasStatus = true →
        (menuItemClickHandler dom item r s).statusText = busyAdvisoryMsg
        ∧ "error" ∈ (menuItemClickHandler dom item r s).statusClasses) := by
  unfold menuItemClickHandler
  rw [if_pos hbusy]
  refine ⟨updateStatusMessage_isLoading _ _ _ _,
    updateStatusMessage_pendingTimers _ _ _ _,
    updateStatusMessage_currentTab _ _ _ _,
    updateStatusMessage_menuDisabled _ _ _ _,
    updateStatusMessage_activeTabBtns _ _ _ _,
    updateStatusMessage_activeContents _ _ _ _, ?_⟩
  intro hst
  constructor
  · exact updateStatusMessage_statusText _ _ _ _ hst
  · unfold updateStatusMessage
    rw [hst]
    simp [List.mem_insert_iff]

/-- Witness for C3 at the concrete busy state. -/
theorem busy_submit_rejected_witness :
    (menuItemClickHandler demoDom (some "Soda") 0 demoBusy).isLoading
        = demoBusy.isLoading
    ∧ (menuItemClickHandler demoDom (some "Soda") 0 demoBusy).pendingTimers
        = demoBusy.pendingTimers
    ∧ (menuItemClickHandler demoDom (some "Soda") 0 demoBusy).currentTab
        = demoBusy.currentTab
    ∧ (menuItemClickHandler demoDom (some "Soda") 0 demoBusy).menuDisabled
        = demoBusy.menuDisabled
    ∧ (menuItemClickHandler demoDom (some "Soda") 0 demoBusy).activeTabBtns
        = demoBusy.activeTabBtns
    ∧ (menuItemClickHandler demoDom (some "Soda") 0 demoBusy).activeContents
        = demoBusy.activeContents
    ∧ ((menuItemClickHandler demoDom (some "Soda") 0 demoBusy).statusText
          = busyAdvisoryMsg
        ∧ "error" ∈ (menuItemClickHandler demoDom (some "Soda") 0
            demoBusy).statusClasses) :=
  have h := busy_submit_rejected demoDom demoBusy (some "Soda") 0 rfl
  ⟨h.1, h.2.1, h.2.2.1, h.2.2.2.1, h.2.2.2.2.1, h.2.2.2.2.2.1,
    h.2.2.2.2.2.2 rfl⟩

/-- C4 counterexample: in script.js the delay and the success probability are
hard-coded, not injected.  The computed delay `Math.random() * 2000 + 1000`
equals 1000 at the draw 0 and is never the injected 0 the claim requires,
and with the fixed threshold `> 0.1` the concrete draw 1/20 completes as a
failure, so an injected success probability of 1.0 (all completions succeed)
is not available either. -/
theorem injected_parameters_counterexample :
    computeDelay 0 = 1000 ∧ computeDelay 0 ≠ 0 ∧ simSuccess (1/20) = false :=
  ⟨by norm_num [computeDelay], by norm_num [computeDelay],
    by norm_num [simSuccess]⟩

/-- C4 amended: the delay and success probability are hard-coded constants
(`r * 2000 + 1000` and threshold `0.1` on ambient `Math.random` draws).
Treating the draws as inputs of the embedding: an accepted submit for name
X schedules a delay of at least 1000 ms (never 0); every submit issued
before the completion fires is rejected (schedules nothing); and the
completion delivers the succeeded outcome for X exactly when its draw
exceeds 0.1, the failed outcome otherwise. -/
theorem hardcoded_draws_determine_outcome (dom : Dom) (s : AppState)
    (name : String) (rd rs : ℚ) (time : String)
    (hidle : s.isLoading = false) (hpt : s.pendingTimers = [])
    (hst : dom.hasStatus = true) (hrd : 0 ≤ rd) :
    (menuItemClickHandler dom (some name) rd s).isLoading = true
    ∧ 1000 ≤ computeDelay rd
    ∧ (∀ item2 r2,
        (menuItemClickHandler dom item2 r2
            (menuItemClickHandler dom (some name) rd s)).pendingTimers
          = (menuItemClickHandler dom (some name) rd s).pendingTimers)
    ∧ (simSuccess rs = true →
        (fireTimer dom rs time
            (menuItemClickHandler dom (some name) rd s)).statusText
          = successMsg (some name) time)
    ∧ (simSuccess rs = false →
        (fireTimer dom rs time
            (menuItemClickHandler dom (some name) rd s)).statusText
          = failMsg (some name) time) := by
  have hnl : ¬s.isLoading = true := by rw [hidle]; exact Bool.false_ne_true
  have hred : menuItemClickHandler dom (some name) rd s
      = simulateRestApiCall dom (some name) rd s := by
    unfold menuItemClickHandler
    rw [if_neg hnl]
  have hbpt : (menuItemClickHandler dom (some name) rd s).pendingTimers
      = [⟨some name, computeDelay rd⟩] := by
    rw [hred, simulateRestApiCall_pendingTimers, hpt]
    rfl
  refine ⟨by rw [hred, simulateRestApiCall_isLoading], ?_, ?_, ?_, ?_⟩
  · unfold computeDelay
    nlinarith
  · intro item2 r2
    have hb : (menuItemClickHandler dom (some name) rd s).isLoading = true := by
      rw [hred, simulateRestApiCall_isLoading]
    rw [menuItemClickHandler_busy dom item2 r2 _ hb,
      updateStatusMessage_pendingTimers]
  · intro hs
    rw [fireTimer_eq dom rs time _ ⟨some name, computeDelay rd⟩ [] hbpt, hs]
    show (handleApiSuccess dom (some name) time
      (menuItemClickHandler dom (some name) rd s)).statusText = _
    exact updateStatusMessage_statusText _ _ _ _ hst
  · intro hs
    rw [fireTimer_eq dom rs time _ ⟨some name, computeDelay rd⟩ [] hbpt, hs]
    show (handleApiError dom (some name) time
      (menuItemClickHandler dom (some name) rd s)).statusText = _
    exact updateStatusMessage_statusText _ _ _ _ hst

/-- Witness for the amended C4 at a concrete idle state and concrete
draws. -/
theorem hardcoded_draws_determine_outcome_witness :
    (menuItemClickHandler demoDom (some "Pizza") 0
        (initState demoDom)).isLoading = true
    ∧ 1000 ≤ computeDelay 0
    ∧ ((menuItemClickHandler demoDom (some "Soda") 0
          (menuItemClickHandler demoDom (some "Pizza") 0
            (initState demoDom))).pendingTimers
        = (menuItemClickHandler demoDom (some "Pizza") 0
            (initState demoDom)).pendingTimers)
    ∧ (fireTimer demoDom (1/2) "12:00:00"
          (menuItemClickHandler demoDom (some "Pizza") 0
            (initState demoDom))).statusText
        = successMsg (some "Pizza") "12:00:00" :=
  have h := hardcoded_draws_determine_outcome demoDom (initState demoDom)
    "Pizza" 0 (1/2) "12:00:00" rfl rfl rfl (le_refl 0)
  ⟨h.1, h.2.1, h.2.2.1 (some "Soda") 0,
    h.2.2.2.1 (by norm_num [simSuccess])⟩

/-- C5: a menu-item click in the idle state transitions to busy and
schedules a completion timer whose delay is exactly `r * 2000 + 1000` for
the random draw `r`; for every draw in [0,1) this delay lies in
[1000, 3000] milliseconds. -/
theorem delay_in_range (dom : Dom) (s : AppState) (item : Option String)
    (r : ℚ) (hidle : s.isLoading = false) (h0 : 0 ≤ r) (h1 : r < 1) :
    (menuItemClickHandler dom item r s).isLoading = true
    ∧ (menuItemClickHandler dom item r s).pendingTimers
        = s.pendingTimers ++ [⟨item, computeDelay r⟩]
    ∧ computeDelay r = r * 2000 + 1000
    ∧ 1000 ≤ computeDelay r ∧ computeDelay r ≤ 3000 := by
  have hnl : ¬s.isLoading = true := by rw [hidle]; exact Bool.false_ne_true
  have hred : menuItemClickHandler dom item r s
      = simulateRestApiCall dom item r s := by
    unfold menuItemClickHandler
    rw [if_neg hnl]
  refine ⟨by rw [hred, simulateRestApiCall_isLoading],
    by rw [hred, simulateRestApiCall_pendingTimers], rfl, ?_, ?_⟩
  · unfold computeDelay
    nlinarith
  · unfold computeDelay
    nlinarith

/-- Witness for C5 at the initial state with draw 0. -/
theorem delay_in_range_witness :
    (menuItemClickHandler demoDom (some "Pizza") 0
        (initState demoDom)).isLoading = true
    ∧ (menuItemClickHandler demoDom (some "Pizza") 0
          (initState demoDom)).pendingTimers
        = (initState demoDom).pendingTimers ++ [⟨some "Pizza", computeDelay 0⟩]
    ∧ computeDelay 0 = 0 * 2000 + 1000
    ∧ 1000 ≤ computeDelay 0 ∧ computeDelay 0 ≤ 3000 :=
  delay_in_range demoDom (initState demoDom) (some "Pizza") 0 rfl
    (le_refl 0) (by norm_num)

/-- The set of real random draws in [0,1) that pass the success test of
script.js line 168 (`Math.random() > 0.1`). -/
def successSet : Set ℝ := {r : ℝ | 0 ≤ r ∧ r < 1 ∧ 1/10 < r}

lemma successSet_eq_Ioo : successSet = Set.Ioo (1/10 : ℝ) 1 := by
  ext r
  constructor
  · rintro ⟨h0, h1, h10⟩
    exact ⟨h10, h1⟩
  · rintro ⟨h10, h1⟩
    exact ⟨by linarith, h1, h10⟩

/-- C6: the completion draws success exactly for the random values above
0.1; within [0,1) those draws form a set of Lebesgue measure 9/10 (the
default success probability 0.90); and in a busy state the completion
resolves to exactly one of the two outcomes: the success handler when the
draw passes, the error handler otherwise. -/
theorem success_probability :
    (∀ q : ℚ, simSuccess q = true ↔ 1/10 < q)
    ∧ (∀ q : ℚ, 0 ≤ q → q < 1 → ((q : ℝ) ∈ successSet ↔ simSuccess q = true))
    ∧ MeasureTheory.volume successSet = ENNReal.ofReal (9/10)
    ∧ (∀ dom r time s t rest, s.pendingTimers = t :: rest →
        (simSuccess r = true →
          fireTimer dom r time s
            = { handleApiSuccess dom t.itemName time s with
                isLoading := false
                menuDisabled := false
                pendingTimers := rest })
        ∧ (simSuccess r = false →
          fireTimer dom r time s
            = { handleApiError dom t.itemName time s with
                isLoading := false
                menuDisabled := false
                pendingTimers := rest })) := by
  refine ⟨?_, ?_, ?_, ?_⟩
  · intro q
    simp [simSuccess]
  · intro q h0 h1
    unfold successSet
    simp only [Set.mem_setOf_eq, simSuccess, gt_iff_lt, decide_eq_true_eq]
    rw [show (1:ℝ)/10 = ((1/10 : ℚ) : ℝ) by norm_num]
    constructor
    · rintro ⟨-, -, h10⟩
      exact_mod_cast h10
    · intro h10
      exact ⟨by exact_mod_cast h0, by exact_mod_cast h1, by exact_mod_cast h10⟩
  · rw [successSet_eq_Ioo, Real.volume_Ioo]
    norm_num
  · intro dom r time s t rest hpt
    constructor
    · intro hs
      rw [fireTimer_eq dom r time s t rest hpt, hs]
      rfl
    · intro hs
      rw [fireTimer_eq dom r time s t rest hpt, hs]
      rfl

/-- Witness for C6 at the concrete draws 1/2 (pass) and 1/20 (fail) and the
concrete busy state. -/
theorem success_probability_witness :
    (simSuccess (1/2) = true ↔ (1:ℚ)/10 < 1/2)
    ∧ (((1/2 : ℚ) : ℝ) ∈ successSet ↔ simSuccess (1/2) = true)
    ∧ (fireTimer demoDom (1/2) "12:00:00" demoBusy
        = { handleApiSuccess demoDom (some "Pizza") "12:00:00" demoBusy with
            isLoading := false
            menuDisabled := false
            pendingTimers := [] })
    ∧ (fireTimer demoDom (1/20) "12:00:00" demoBusy
        = { handleApiError demoDom (some "Pizza") "12:00:00" demoBusy with
            isLoading := false
            menuDisabled := false
            pendingTimers := [] }) :=
  have h := success_probability
  have hpt : demoBusy.pendingTimers
      = ⟨some "Pizza", computeDelay (1/2)⟩ :: [] := rfl
  ⟨h.1 (1/2),
    h.2.1 (1/2) (by norm_num) (by norm_num),
    (h.2.2.2 demoDom (1/2) "12:00:00" demoBusy _ [] hpt).1
      (by norm_num [simSuccess]),
    (h.2.2.2 demoDom (1/20) "12:00:00" demoBusy _ [] hpt).2
      (by norm_num [simSuccess])⟩

/-- C7: the rejection notification is a busy advisory whose text differs
from every failure-outcome notification, and the completion surfaces
failure through exactly the same path as success: one call of
updateStatusMessage whose message and class depend only on the boolean
success draw (plus the name and timestamp). -/
theorem rejection_distinct_from_failure :
    (∀ name time, busyAdvisoryMsg ≠ failMsg name time)
    ∧ (∀ dom s item r, s.isLoading = true →
        menuItemClickHandler dom item r s
          = updateStatusMessage dom busyAdvisoryMsg "error" s)
    ∧ (∀ dom r time s t rest, s.pendingTimers = t :: rest →
        fireTimer dom r time s
          = { updateStatusMessage dom
                (if simSuccess r then successMsg t.itemName time
                 else failMsg t.itemName time)
                (if simSuccess r then "success" else "error") s with
              isLoading := false
              menuDisabled := false
              pendingTimers := rest }) := by
  refine ⟨?_, ?_, ?_⟩
  · intro name time h
    have h2 : busyAdvisoryMsg.data.head? = (failMsg name time).data.head? :=
      congrArg (fun x => x.data.head?) h
    have h3 : some 'A' = some '✗' := h2
    simp at h3
  · intro dom s item r hb
    exact menuItemClickHandler_busy dom item r s hb
  · intro dom r time s t rest hpt
    rw [fireTimer_eq dom r time s t rest hpt]
    cases hs : simSuccess r with
    | true => rfl
    | false => rfl

/-- Witness for C7: the concrete rejection in the busy state and the two
concrete completions. -/
theorem rejection_distinct_from_failure_witness :
    busyAdvisoryMsg ≠ failMsg (some "Pizza") "12:00:00"
    ∧ (menuItemClickHandler demoDom (some "Soda") 0 demoBusy
        = updateStatusMessage demoDom busyAdvisoryMsg "error" demoBusy)
    ∧ (fireTimer demoDom (1/20) "12:00:00" demoBusy
        = { updateStatusMessage demoDom
              (if simSuccess (1/20) then successMsg (some "Pizza") "12:00:00"
               else failMsg (some "Pizza") "12:00:00")
              (if simSuccess (1/20) then "success" else "error") demoBusy with
            isLoading := false
            menuDisabled := false
            pendingTimers := [] }) :=
  have h := rejection_distinct_from_failure
  ⟨h.1 (some "Pizza") "12:00:00",
    h.2.1 demoDom demoBusy (some "Soda") 0 rfl,
    h.2.2 demoDom (1/20) "12:00:00" demoBusy ⟨some "Pizza", computeDelay (1/2)⟩
      [] rfl⟩

lemma updateStatusMessage_statusClasses (dom : Dom) (m ty : String)
    (s : AppState) (hst : dom.hasStatus = true) :
    (updateStatusMessage dom m ty s).statusClasses
      = if ty = "" then
          s.statusClasses.filter (fun c => !(statusStyleClasses.contains c))
        else
          (s.statusClasses.filter
            (fun c => !(statusStyleClasses.contains c))).insert ty := by
  unfold updateStatusMessage
  rw [hst]
  simp

lemma simulateRestApiCall_statusText (dom : Dom) (i : Option String) (r : ℚ)
    (s : AppState) (hst : dom.hasStatus = true) :
    (simulateRestApiCall dom i r s).statusText
      = "Simulating REST API call for \"" ++ attrToString i ++ "\"..." := by
  show (updateStatusMessage dom
    ("Simulating REST API call for \"" ++ attrToString i ++ "\"...")
    "loading" _).statusText = _
  exact updateStatusMessage_statusText _ _ _ _ hst

/-- C8: while an operation is in flight, clicking a tab button leaves the
current tab and the active highlighting (buttons and content panels)
unchanged and only shows the wait advisory; more generally, no event
modifies currentTab while the controller is busy. -/
theorem busy_tab_click_frame (dom : Dom) (s : AppState) (t : String)
    (hbusy : s.isLoading = true) :
    (tabClickHandler dom t s).currentTab = s.currentTab
    ∧ (tabClickHandler dom t s).activeTabBtns = s.activeTabBtns
    ∧ (tabClickHandler dom t s).activeContents = s.activeContents
    ∧ (dom.hasStatus = true →
        (tabClickHandler dom t s).statusText
          = "Please wait for current operation to complete")
    ∧ ∀ e, (step dom s e).currentTab = s.currentTab := by
  have hred : tabClickHandler dom t s
      = updateStatusMessage dom
          "Please wait for current operation to complete" "error" s := by
    unfold tabClickHandler
    rw [if_pos hbusy]
  refine ⟨by rw [hred, updateStatusMessage_currentTab],
    by rw [hred, updateStatusMessage_activeTabBtns],
    by rw [hred, updateStatusMessage_activeContents],
    fun hst => by rw [hred]; exact updateStatusMessage_statusText _ _ _ _ hst,
    ?_⟩
  intro e
  cases e with
  | clickTab t2 =>
    show (tabClickHandler dom t2 s).currentTab = s.currentTab
    unfold tabClickHandler
    rw [if_pos hbusy, updateStatusMessage_currentTab]
  | clickMenu i r =>
    show (menuItemClickHandler dom i r s).currentTab = s.currentTab
    rw [menuItemClickHandler_busy dom i r s hbusy,
      updateStatusMessage_currentTab]
  | fire r time =>
    show (fireTimer dom r time s).currentTab = s.currentTab
    cases hpt : s.pendingTimers with
    | nil =>
      unfold fireTimer
      rw [hpt]
    | cons a rest =>
      rw [fireTimer_eq dom r time s a rest hpt]
      cases hs : simSuccess r with
      | true => simp [handleApiSuccess]
      | false => simp [handleApiError]

/-- Witness for C8 at the concrete busy state. -/
theorem busy_tab_click_frame_witness :
    (tabClickHandler demoDom "tab2" demoBusy).currentTab = demoBusy.currentTab
    ∧ (tabClickHandler demoDom "tab2" demoBusy).activeTabBtns
        = demoBusy.activeTabBtns
    ∧ (tabClickHandler demoDom "tab2" demoBusy).activeContents
        = demoBusy.activeContents
    ∧ (tabClickHandler demoDom "tab2" demoBusy).statusText
        = "Please wait for current operation to complete"
    ∧ (step demoDom demoBusy (.clickTab "tab3")).currentTab
        = demoBusy.currentTab :=
  have h := busy_tab_click_frame demoDom demoBusy "tab2" rfl
  ⟨h.1, h.2.1, h.2.2.1, h.2.2.2.1 rfl, h.2.2.2.2 (.clickTab "tab3")⟩

/-- C9: the submit path validates nothing about the item name: for every
`data-item` value, including the empty string and a missing attribute
(null), a click in the idle state is accepted, runs a full busy cycle, and
the completion delivers a success or failure outcome whose message mentions
that name. -/
theorem no_name_validation (dom : Dom) (s : AppState) (item : Option String)
    (rd rs : ℚ) (time : String) (hidle : s.isLoading = false)
    (hpt : s.pendingTimers = []) (hst : dom.hasStatus = true) :
    (menuItemClickHandler dom item rd s).isLoading = true
    ∧ (menuItemClickHandler dom item rd s).pendingTimers
        = [⟨item, computeDelay rd⟩]
    ∧ (menuItemClickHandler dom item rd s).statusText
        = "Simulating REST API call for \"" ++ attrToString item ++ "\"..."
    ∧ (fireTimer dom rs time (menuItemClickHandler dom item rd s)).isLoading
        = false
    ∧ (fireTimer dom rs time
        (menuItemClickHandler dom item rd s)).pendingTimers = []
    ∧ ∃ pre post,
        (fireTimer dom rs time
          (menuItemClickHandler dom item rd s)).statusText
          = pre ++ attrToString item ++ post := by
  have hred := menuItemClickHandler_idle dom item rd s hidle
  have hbpt : (menuItemClickHandler dom item rd s).pendingTimers
      = [⟨item, computeDelay rd⟩] := by
    rw [hred, simulateRestApiCall_pendingTimers, hpt]
    rfl
  have hfe := fireTimer_eq dom rs time _ ⟨item, computeDelay rd⟩ [] hbpt
  refine ⟨by rw [hred, simulateRestApiCall_isLoading], hbpt,
    by rw [hred]; exact simulateRestApiCall_statusText _ _ _ _ hst,
    by rw [hfe], by rw [hfe], ?_⟩
  rw [hfe]
  cases hs : simSuccess rs with
  | true =>
    refine ⟨"✓ API call successful for \"", "\" at " ++ time, ?_⟩
    show (handleApiSuccess dom item time
      (menuItemClickHandler dom item rd s)).statusText = _
    rw [handleApiSuccess, updateStatusMessage_statusText _ _ _ _ hst,
      successMsg]
    rw [String.append_assoc, String.append_assoc]
  | false =>
    refine ⟨"✗ API call failed for \"", "\" at " ++ time, ?_⟩
    show (handleApiError dom item time
      (menuItemClickHandler dom item rd s)).statusText = _
    rw [handleApiError, updateStatusMessage_statusText _ _ _ _ hst, failMsg]
    rw [String.append_assoc, String.append_assoc]

/-- Witness for C9: a click with a missing data-item attribute (null) from
the initial state, completing with a failing draw. -/
theorem no_name_validation_witness :
    (menuItemClickHandler demoDom none 0 (initState demoDom)).isLoading = true
    ∧ (menuItemClickHandler demoDom none 0
          (initState demoDom)).pendingTimers = [⟨none, computeDelay 0⟩]
    ∧ (menuItemClickHandler demoDom none 0 (initState demoDom)).statusText
        = "Simulating REST API call for \"" ++ attrToString none ++ "\"..."
    ∧ (fireTimer demoDom (1/20) "12:00:00"
        (menuItemClickHandler demoDom none 0 (initState demoDom))).isLoading
        = false
    ∧ (fireTimer demoDom (1/20) "12:00:00"
        (menuItemClickHandler demoDom none 0
          (initState demoDom))).pendingTimers = []
    ∧ ∃ pre post,
        (fireTimer demoDom (1/20) "12:00:00"
          (menuItemClickHandler demoDom none 0
            (initState demoDom))).statusText
          = pre ++ attrToString none ++ post :=
  no_name_validation demoDom (initState demoDom) none 0 (1/20) "12:00:00"
    rfl rfl rfl

/-- C10: after every updateStatusMessage call on an existing status element
the class list carries at most one of the styling classes loading, success,
error, and the call is a no-op when the status element does not exist. -/
theorem status_classes_invariant (dom : Dom) (s : AppState)
    (msg ty : String) :
    (dom.hasStatus = true →
      (updateStatusMessage dom msg ty s).statusClasses.countP
          (fun c => statusStyleClasses.contains c) ≤ 1)
    ∧ (dom.hasStatus = false → updateStatusMessage dom msg ty s = s) := by
  constructor
  · intro hst
    have hcl : (s.statusClasses.filter
        (fun c => !(statusStyleClasses.contains c))).countP
        (fun c => statusStyleClasses.contains c) = 0 := by
      rw [List.countP_eq_zero]
      intro a ha
      have := List.of_mem_filter ha
      simpa using this
    rw [updateStatusMessage_statusClasses dom msg ty s hst]
    split
    · rw [hcl]
      norm_num
    · by_cases hm : ty ∈ s.statusClasses.filter
        (fun c => !(statusStyleClasses.contains c))
      · rw [List.insert_of_mem hm, hcl]
        norm_num
      · rw [List.insert_of_not_mem hm, List.countP_cons, hcl]
        split <;> norm_num
  · intro hst
    exact updateStatusMessage_of_hasStatus_false _ _ _ _ hst

/-- Witness for C10: a concrete call with the error class on a page with a
status element, and a call on a page without one. -/
theorem status_classes_invariant_witness :
    (updateStatusMessage demoDom "msg" "error" demoBusy).statusClasses.countP
        (fun c => statusStyleClasses.contains c) ≤ 1
    ∧ updateStatusMessage ⟨[], [], false⟩ "msg" "error" demoBusy = demoBusy :=
  ⟨(status_classes_invariant demoDom demoBusy "msg" "error").1 rfl,
    (status_classes_invariant ⟨[], [], false⟩ demoBusy "msg" "error").2 rfl⟩
